import Mathlib

/-!
# BadDebtGuard AI — verification of the hybrid loan-risk pipeline

Shallow embedding of the repository's risk-assessment pipeline and its React
frontend, together with proofs of the documented behavioural properties.

Sources embedded here:

* `frontend/src/App.jsx` (present in the source tree): the `startAnalysis`
  request handler, the `riskClass` styling derivation, and the hardcoded
  sample risk-premium breakdown shown when the backend is unreachable.
* `backend/app/xgboost_predictor.py`: not present in the source tree, but its
  data-quality fallback, DTI computation and DSR-based credit-score table are
  quoted verbatim in `XGBOOST_IMPROVEMENTS.md`; the embedding follows those
  excerpts.
* `backend/app/chromadb_rag.py`: not present in the source tree, but the body
  of `get_bnm_context_for_loan` is quoted verbatim in `PROJECT_ANALYSIS.md`;
  the embedding follows that excerpt.
* `backend/app/main.py` (hybrid fusion) and `backend/app/credit_scorer.py`:
  not present in the source tree and not quoted; those parts are modelled
  from the specification, as flagged in the individual doc comments.

Numbers are modelled as rationals (`ℚ`): every quantity involved is a
decimal percentage or score and all the arithmetic in question is exact.
-/

namespace BadDebtGuard

/-- Risk tiers used throughout the pipeline (`LOW`/`MEDIUM`/`HIGH`). -/
inductive RiskTier
  | LOW
  | MEDIUM
  | HIGH
deriving DecidableEq, BEq

/-- Data-quality flag attached to a quantitative prediction. -/
inductive DataQuality
  | SUFFICIENT
  | INSUFFICIENT
deriving DecidableEq, BEq

/-- Synthetic credit tiers estimated from affordability ratios. -/
inductive CreditTier
  | EXCELLENT
  | GOOD
  | FAIR
  | BELOW_AVERAGE
  | POOR
deriving DecidableEq, BEq

/-! ## Credit ratio computation

`dsrPercent` follows the DTI computation of `xgboost_predictor.py` quoted in
`XGBOOST_IMPROVEMENTS.md`:
`if monthly_income > 0: dti_ratio = (monthly_debt / monthly_income) * 100
 else: dti_ratio = 0`. -/

/-- Debt-service percentage: `100 × monthly_debt / monthly_income` when the
income is positive, `0` otherwise. -/
def dsrPercent (monthlyIncome monthlyDebt : ℚ) : ℚ :=
  if 0 < monthlyIncome then monthlyDebt / monthlyIncome * 100 else 0

/-- DSR-based credit-score estimation table quoted in
`XGBOOST_IMPROVEMENTS.md`: `≤20 → 750 (Excellent)`, `≤35 → 700 (Good)`,
`≤50 → 650 (Fair)`, `≤70 → 600 (Below average)`, `else → 550 (Poor)`. -/
def estimatedCreditScore (dsr : ℚ) : ℚ :=
  if dsr ≤ 20 then 750
  else if dsr ≤ 35 then 700
  else if dsr ≤ 50 then 650
  else if dsr ≤ 70 then 600
  else 550

/-- The credit tier named by each row of the score table above. -/
def tierFromDSR (dsr : ℚ) : CreditTier :=
  if dsr ≤ 20 then CreditTier.EXCELLENT
  else if dsr ≤ 35 then CreditTier.GOOD
  else if dsr ≤ 50 then CreditTier.FAIR
  else if dsr ≤ 70 then CreditTier.BELOW_AVERAGE
  else CreditTier.POOR

/-- Output of the credit-ratio scorer: the DSR percentage, the estimated
tier, and the low-confidence marker raised when the DSR is not computable. -/
structure CreditRatios where
  dsr_percent : ℚ
  estimated_credit_tier : CreditTier
  low_confidence : Bool
deriving DecidableEq

/-- Modelled from the spec: `backend/app/credit_scorer.py` is not in the
source tree.  Per the spec's Credit Ratio Scorer contract, the tier is read
off the DSR threshold table when the income is positive, and defaults to
`FAIR` with an explicit low-confidence marker when the income is zero (DSR
not computable).  The threshold table itself matches the DSR-based score
mapping of `xgboost_predictor.py` quoted in `XGBOOST_IMPROVEMENTS.md`. -/
def scoreProfile (monthlyIncome monthlyDebt : ℚ) : CreditRatios :=
  if 0 < monthlyIncome then
    { dsr_percent := dsrPercent monthlyIncome monthlyDebt
      estimated_credit_tier := tierFromDSR (dsrPercent monthlyIncome monthlyDebt)
      low_confidence := false }
  else
    { dsr_percent := 0
      estimated_credit_tier := CreditTier.FAIR
      low_confidence := true }

/-! ## Quantitative predictor (XGBoost adapter) -/

/-- Financial data extracted from the uploaded documents. -/
structure DocumentData where
  monthly_income : ℚ
  monthly_debt : ℚ
  loan_amount : ℚ
  employment_years : ℚ
deriving DecidableEq

/-- Result record of the quantitative predictor. -/
structure QuantPrediction where
  approval_probability : ℚ
  risk_level : RiskTier
  model_confidence : ℚ
  data_quality : DataQuality
deriving DecidableEq

/-- Output of the underlying trained statistical model. -/
structure ModelOutput where
  probability : ℚ
  tier : RiskTier
  confidence : ℚ
deriving DecidableEq

/-- The neutral fallback returned when the data is insufficient, quoted in
`XGBOOST_IMPROVEMENTS.md`:
`{approval_probability: 50.0, risk_level: MEDIUM, model_confidence: 30.0,
data_quality: INSUFFICIENT}`. -/
def insufficientFallback : QuantPrediction :=
  { approval_probability := 50
    risk_level := RiskTier.MEDIUM
    model_confidence := 30
    data_quality := DataQuality.INSUFFICIENT }

/-- Quantitative predictor adapter, following the `xgboost_predictor.py`
excerpts quoted in `XGBOOST_IMPROVEMENTS.md`: the monthly income is
annualized (`income = monthly_income * 12`), and
`if income == 0 or loan_amount == 0` the predictor short-circuits to the
neutral fallback; otherwise the underlying model (passed here as the
function argument `model`) is invoked and its output returned with
`data_quality: SUFFICIENT`. -/
def predictQuant (model : DocumentData → ModelOutput) (d : DocumentData) :
    QuantPrediction :=
  let income := d.monthly_income * 12
  if income = 0 ∨ d.loan_amount = 0 then
    insufficientFallback
  else
    let out := model d
    { approval_probability := out.probability
      risk_level := out.tier
      model_confidence := out.confidence
      data_quality := DataQuality.SUFFICIENT }

/-! ## Hybrid fusion engine -/

/-- Qualitative (LLM) assessment as consumed by the fusion engine. -/
structure QualAssessment where
  approval_probability : ℚ
  risk_tier : RiskTier
deriving DecidableEq

/-- Modelled from the spec: the hybrid-fusion code of `backend/app/main.py`
is not in the source tree.  Per the spec's Fusion Engine contract and the
pipeline formula documented in `README.md`
(`Final = 0.70 × XGBoost + 0.30 × LLM`), the fused probability is the fixed
70/30 weighted blend when the quantitative data quality is `SUFFICIENT`;
when it is `INSUFFICIENT` the weights are redistributed so that the
qualitative result dominates while the neutral quantitative score is still
blended (the spec documents this branch as an open question; the 30/70
reversal used here is one admissible reading and no theorem below depends
on it). -/
def fuseProbability (quant : QuantPrediction) (qualProb : ℚ) : ℚ :=
  if quant.data_quality = DataQuality.SUFFICIENT then
    7 / 10 * quant.approval_probability + 3 / 10 * qualProb
  else
    3 / 10 * quant.approval_probability + 7 / 10 * qualProb

/-- Modelled from the spec: fixed inclusive thresholds deriving the final
risk tier from the fused probability (`≥80 → LOW`, `≥55 → MEDIUM`,
`else → HIGH`). -/
def tierFromProbability (p : ℚ) : RiskTier :=
  if 80 ≤ p then RiskTier.LOW
  else if 55 ≤ p then RiskTier.MEDIUM
  else RiskTier.HIGH

/-- The fused decision returned by the fusion engine. -/
structure FusedDecision where
  final_probability : ℚ
  final_risk_tier : RiskTier
  model_agreement : Bool
deriving DecidableEq

/-- Modelled from the spec: the fusion step of `backend/app/main.py` is not
in the source tree.  Blends the two probabilities, applies the probability
thresholds, and applies the fraud veto: a fraud score at or above the fixed
high-severity threshold `60` forces the final tier to `HIGH` regardless of
the threshold derivation. -/
def fuse (fraudScore : ℚ) (quant : QuantPrediction) (qual : QualAssessment) :
    FusedDecision :=
  let p := fuseProbability quant qual.approval_probability
  { final_probability := p
    final_risk_tier :=
      if 60 ≤ fraudScore then RiskTier.HIGH else tierFromProbability p
    model_agreement := quant.risk_level == qual.risk_tier }

/-! ## Risk-premium breakdown -/

/-- The transparent premium breakdown: six components plus a total field. -/
structure PremiumBreakdown where
  base_rate : ℚ
  credit_risk_premium : ℚ
  ltv_adjustment : ℚ
  employment_discount : ℚ
  income_discount : ℚ
  credit_history_discount : ℚ
  total : ℚ
deriving DecidableEq

/-- Arithmetic sum of the six breakdown components. -/
def componentSum (b : PremiumBreakdown) : ℚ :=
  b.base_rate + b.credit_risk_premium + b.ltv_adjustment +
    b.employment_discount + b.income_discount + b.credit_history_discount

/-- The hardcoded sample breakdown displayed by `frontend/src/App.jsx`
(calculation-grid fallback, shown when the backend request fails):
base rate `1.95%`, credit risk premium `+0.30%`, LTV adjustment `+0.25%`,
employment stability discount `-0.15%`, additional income discount
`-0.10%`, clean credit history discount `-0.20%`, displayed total `2.45%`. -/
def sampleFallbackBreakdown : PremiumBreakdown :=
  { base_rate := 195 / 100
    credit_risk_premium := 30 / 100
    ltv_adjustment := 25 / 100
    employment_discount := -15 / 100
    income_discount := -10 / 100
    credit_history_discount := -20 / 100
    total := 245 / 100 }

/-- The backend `calculation_breakdown` response example documented in
`OPENAI_INTEGRATION.md`: base rate `1.95`, credit risk premium `0.45`, LTV
adjustment `0.39`, employment discount `-0.15`, income discount `-0.10`,
credit history discount `-0.20`, total `2.34`. -/
def documentedExampleBreakdown : PremiumBreakdown :=
  { base_rate := 195 / 100
    credit_risk_premium := 45 / 100
    ltv_adjustment := 39 / 100
    employment_discount := -15 / 100
    income_discount := -10 / 100
    credit_history_discount := -20 / 100
    total := 234 / 100 }

/-! ## Guideline retriever (ChromaDB RAG adapter)

Embedding of `get_bnm_context_for_loan` as quoted verbatim in
`PROJECT_ANALYSIS.md`: four canonical queries are issued, each retrieval
result is rendered as a bullet line, the per-query results are concatenated
in order, and the combined list is capped at `8` entries
(`all_context[:8]`). -/

/-- The four canonical queries issued for a loan context. -/
def bnmQueries (loanType bankingSystem : String) : List String :=
  ["DSR requirements for " ++ loanType ++ " loans",
   "LTV limits for " ++ loanType,
   bankingSystem ++ " banking regulations",
   "Credit assessment guidelines"]

/-- The capped list of bullet-formatted guideline snippets.  `retrieve`
stands for the corpus search (`retrieve_context` with `n_results=2`); the
`customerType` selector is accepted but, as in the quoted code, does not
influence the queries. -/
def bnmContextList (retrieve : String → List String)
    (loanType bankingSystem _customerType : String) : List String :=
  (((bnmQueries loanType bankingSystem).map
      (fun q => (retrieve q).map (fun doc => "• " ++ doc))).flatten).take 8

/-- A degenerate corpus search returning the same single guideline for every
query; used to exhibit duplicate snippets in the combined result. -/
def constantRetrieve : String → List String :=
  fun _ => ["Guideline X"]

/-! ## Frontend: risk styling class (`frontend/src/App.jsx`) -/

/-- JavaScript `a || b` on an optional string: the fallback is taken when
the field is absent or is the (falsy) empty string. -/
def jsOrElse (a : Option String) (b : String) : String :=
  match a with
  | some s => if s = "" then b else s
  | none => b

/-- The `risk_analysis` object of a backend response, as read by the
frontend: both tier fields may be absent. -/
structure RiskAnalysis where
  risk_category : Option String
  risk_level : Option String
deriving DecidableEq

/-- The effective tier string:
`risk_analysis.risk_category || risk_analysis.risk_level || ''`. -/
def effectiveRiskString (ra : RiskAnalysis) : String :=
  jsOrElse ra.risk_category (jsOrElse ra.risk_level "")

/-- ASCII lowercase conversion of one character (the fragment of JavaScript
`toLowerCase` relevant to the tier strings). -/
def charLower (c : Char) : Char :=
  if 'A' ≤ c ∧ c ≤ 'Z' then Char.ofNat (c.toNat + 32) else c

/-- JavaScript `s.toLowerCase()` on ASCII strings. -/
def strLower (s : String) : String :=
  String.mk (s.data.map charLower)

/-- Substring search on character lists (JavaScript `String.includes`). -/
def charsContain (l pat : List Char) : Bool :=
  match l with
  | [] => pat.isEmpty
  | _ :: rest => pat.isPrefixOf l || charsContain rest pat

/-- JavaScript `s.includes(pat)` for strings. -/
def strIncludes (s pat : String) : Bool :=
  charsContain s.toList pat.toList

/-- The `riskClass` styling derivation of `frontend/src/App.jsx`: `''` when
there is no analysis result; otherwise `'low'` when the lowercased effective
tier string contains `"low"`, else `'medium'` when it contains `"medium"`,
else `'high'`. -/
def riskClass (res : Option RiskAnalysis) : String :=
  match res with
  | none => ""
  | some ra =>
      if strIncludes (strLower (effectiveRiskString ra)) "low" then "low"
      else if strIncludes (strLower (effectiveRiskString ra)) "medium" then "medium"
      else "high"

/-! ## Frontend: `startAnalysis` state transitions (`frontend/src/App.jsx`) -/

/-- Outcome of the `fetch` to `/api/analyze-loan`: the promise may reject,
the HTTP response may be not-ok (the handler then throws), the body may fail
to parse as JSON, or a parsed payload is obtained. -/
inductive FetchOutcome (α : Type)
  | networkError : FetchOutcome α
  | httpError : String → FetchOutcome α
  | jsonError : FetchOutcome α
  | success : α → FetchOutcome α
deriving DecidableEq

/-- The component state touched by `startAnalysis`. -/
structure AppState (α : Type) where
  analysisStatus : String
  analysisResult : Option α
deriving DecidableEq

/-- The synchronous prefix of `startAnalysis`, run before the request is
issued: `setAnalysisResult(null); setAnalysisStatus('analyzing')`. -/
def startAnalysisBegin {α : Type} (s : AppState α) : AppState α :=
  { s with analysisResult := none, analysisStatus := "analyzing" }

/-- The whole `startAnalysis` handler: reset, then either the success path
(`setAnalysisResult(data); setAnalysisStatus('complete')`) or the catch
block (`setAnalysisResult(null); setAnalysisStatus('error')`), which is
reached on fetch rejection, a not-ok response, or a JSON parse failure. -/
def startAnalysisRun {α : Type} (s : AppState α) (o : FetchOutcome α) :
    AppState α :=
  let s1 := startAnalysisBegin s
  match o with
  | FetchOutcome.success d =>
      { s1 with analysisResult := some d, analysisStatus := "complete" }
  | _ =>
      { s1 with analysisResult := none, analysisStatus := "error" }

/-! ## Claims -/

/-- Claim C1: whenever the quantitative prediction has `data_quality`
`SUFFICIENT`, the fused probability equals `0.70` times the quantitative
approval probability plus `0.30` times the qualitative approval
probability. -/
theorem fusion_sufficient_weighted_blend
    (quant : QuantPrediction) (qualProb : ℚ)
    (h : quant.data_quality = DataQuality.SUFFICIENT) :
    fuseProbability quant qualProb =
      7 / 10 * quant.approval_probability + 3 / 10 * qualProb := by
  simp [fuseProbability, h]

/-- Claim C1, witness: for quantitative probability `99.8` and qualitative
probability `85` (with sufficient data), the fused probability is exactly
`95.36`. -/
theorem fusion_sufficient_weighted_blend_witness :
    (QuantPrediction.mk (998 / 10) RiskTier.LOW 95
        DataQuality.SUFFICIENT).data_quality = DataQuality.SUFFICIENT ∧
    fuseProbability
        (QuantPrediction.mk (998 / 10) RiskTier.LOW 95 DataQuality.SUFFICIENT)
        85 = 9536 / 100 := by
  refine ⟨rfl, ?_⟩
  rw [fusion_sufficient_weighted_blend _ _ rfl]
  norm_num

/-- Claim C2: whenever `monthly_income = 0` or `loan_amount = 0`, the
quantitative predictor returns exactly
`{approval_probability: 50.0, risk tier MEDIUM, model_confidence: 30.0,
data_quality: INSUFFICIENT}`, and the result does not depend on the
underlying statistical model (the model is not invoked). -/
theorem quant_insufficient_short_circuit
    (model : DocumentData → ModelOutput) (d : DocumentData)
    (h : d.monthly_income = 0 ∨ d.loan_amount = 0) :
    predictQuant model d =
      { approval_probability := 50
        risk_level := RiskTier.MEDIUM
        model_confidence := 30
        data_quality := DataQuality.INSUFFICIENT } ∧
    ∀ model2 : DocumentData → ModelOutput,
      predictQuant model d = predictQuant model2 d := by
  have hc : d.monthly_income * 12 = 0 ∨ d.loan_amount = 0 := by
    rcases h with h | h
    · exact Or.inl (by rw [h]; ring)
    · exact Or.inr h
  refine ⟨?_, fun model2 => ?_⟩
  · simp only [predictQuant, if_pos hc]
    rfl
  · simp only [predictQuant, if_pos hc]

/-- Claim C2, witness: a profile with zero monthly income and a nonzero loan
amount is mapped to the neutral fallback even though the underlying model
would report a `99`-percent approval. -/
theorem quant_insufficient_short_circuit_witness :
    ((DocumentData.mk 0 1200 500000 8).monthly_income = 0 ∨
        (DocumentData.mk 0 1200 500000 8).loan_amount = 0) ∧
    predictQuant (fun _ => ModelOutput.mk 99 RiskTier.LOW 95)
        (DocumentData.mk 0 1200 500000 8) =
      { approval_probability := 50
        risk_level := RiskTier.MEDIUM
        model_confidence := 30
        data_quality := DataQuality.INSUFFICIENT } := by
  exact ⟨Or.inl rfl,
    (quant_insufficient_short_circuit _ _ (Or.inl rfl)).1⟩

/-- Claim C3: a fraud score of at least `60` forces the fused decision's
final risk tier to `HIGH`, for every combination of quantitative and
qualitative inputs. -/
theorem fraud_veto_forces_high
    (fraudScore : ℚ) (quant : QuantPrediction) (qual : QualAssessment)
    (h : 60 ≤ fraudScore) :
    (fuse fraudScore quant qual).final_risk_tier = RiskTier.HIGH := by
  simp [fuse, h]

/-- Claim C3, witness: quantitative tier `LOW`, qualitative tier `LOW`,
fraud score `75` — the final tier is nonetheless `HIGH`. -/
theorem fraud_veto_forces_high_witness :
    (60 : ℚ) ≤ 75 ∧
    (QuantPrediction.mk (998 / 10) RiskTier.LOW 95
        DataQuality.SUFFICIENT).risk_level = RiskTier.LOW ∧
    (QualAssessment.mk 85 RiskTier.LOW).risk_tier = RiskTier.LOW ∧
    (fuse 75
        (QuantPrediction.mk (998 / 10) RiskTier.LOW 95 DataQuality.SUFFICIENT)
        (QualAssessment.mk 85 RiskTier.LOW)).final_risk_tier =
      RiskTier.HIGH := by
  exact ⟨by norm_num, rfl, rfl, fraud_veto_forces_high 75 _ _ (by norm_num)⟩

/-- Claim C4 (code bug): the hardcoded sample breakdown of
`frontend/src/App.jsx` displays a total of `2.45%` while its six displayed
components sum to `2.05%`, so the displayed total is not the arithmetic sum
of the components; the backend response example documented in
`OPENAI_INTEGRATION.md`, by contrast, has a total (`2.34`) that is exactly
the sum of its six components, confirming that `total = sum of components`
is the documented intent. -/
theorem sample_breakdown_total_mismatch :
    componentSum sampleFallbackBreakdown = 205 / 100 ∧
    sampleFallbackBreakdown.total = 245 / 100 ∧
    componentSum sampleFallbackBreakdown ≠ sampleFallbackBreakdown.total ∧
    componentSum documentedExampleBreakdown =
      documentedExampleBreakdown.total := by
  refine ⟨?_, rfl, ?_, ?_⟩
  · norm_num [componentSum, sampleFallbackBreakdown]
  · norm_num [componentSum, sampleFallbackBreakdown]
  · norm_num [componentSum, documentedExampleBreakdown]

/-- Claim C5: for requests not subject to the fraud veto (fraud score below
`60`), the final risk tier is derived from the fused probability by the
fixed inclusive thresholds `≥80 → LOW`, `55 ≤ p < 80 → MEDIUM`,
`< 55 → HIGH`; the boundary values `80` and `55` resolve to the
lower-risk-adjacent tier. -/
theorem threshold_tier_derivation
    (fraudScore : ℚ) (quant : QuantPrediction) (qual : QualAssessment)
    (h : fraudScore < 60) :
    ((fuse fraudScore quant qual).final_risk_tier =
        tierFromProbability (fuse fraudScore quant qual).final_probability) ∧
    (∀ p : ℚ,
      (80 ≤ p → tierFromProbability p = RiskTier.LOW) ∧
      (55 ≤ p → p < 80 → tierFromProbability p = RiskTier.MEDIUM) ∧
      (p < 55 → tierFromProbability p = RiskTier.HIGH)) ∧
    tierFromProbability 80 = RiskTier.LOW ∧
    tierFromProbability 55 = RiskTier.MEDIUM := by
  refine ⟨?_, fun p => ⟨fun h80 => ?_, fun h55 hlt => ?_, fun hlt => ?_⟩,
    by norm_num [tierFromProbability], by norm_num [tierFromProbability]⟩
  · simp [fuse, not_le.mpr h]
  · simp [tierFromProbability, h80]
  · simp [tierFromProbability, h55, not_le.mpr hlt]
  · have h80 : ¬ (80 : ℚ) ≤ p := by linarith
    simp [tierFromProbability, h80, not_le.mpr hlt]

/-- Claim C5, witness: with fraud score `0` and both probabilities at the
boundary value `80`, the fused probability is exactly `80` and the final
tier resolves to `LOW` (inclusive lower bound). -/
theorem threshold_tier_derivation_witness :
    (0 : ℚ) < 60 ∧
    (fuse 0 (QuantPrediction.mk 80 RiskTier.LOW 90 DataQuality.SUFFICIENT)
        (QualAssessment.mk 80 RiskTier.LOW)).final_probability = 80 ∧
    (fuse 0 (QuantPrediction.mk 80 RiskTier.LOW 90 DataQuality.SUFFICIENT)
        (QualAssessment.mk 80 RiskTier.LOW)).final_risk_tier =
      RiskTier.LOW := by
  have hp : (fuse 0
      (QuantPrediction.mk 80 RiskTier.LOW 90 DataQuality.SUFFICIENT)
      (QualAssessment.mk 80 RiskTier.LOW)).final_probability = 80 := by
    norm_num [fuse, fuseProbability]
  refine ⟨by norm_num, hp, ?_⟩
  have h := threshold_tier_derivation 0
    (QuantPrediction.mk 80 RiskTier.LOW 90 DataQuality.SUFFICIENT)
    (QualAssessment.mk 80 RiskTier.LOW) (by norm_num)
  rw [h.1, hp]
  exact h.2.2.1

/-- Claim C6: the credit-ratio scorer maps the DSR to the estimated credit
tier by the ordered threshold table `≤20 → EXCELLENT`, `≤35 → GOOD`,
`≤50 → FAIR`, `≤70 → BELOW_AVERAGE`, `else → POOR`, and whenever the
monthly income is `0` (DSR not computable) the tier is `FAIR` with the
low-confidence marker set. -/
theorem credit_tier_table_and_zero_income_default
    (monthlyIncome monthlyDebt : ℚ) :
    (0 < monthlyIncome →
      (scoreProfile monthlyIncome monthlyDebt).dsr_percent =
          dsrPercent monthlyIncome monthlyDebt ∧
      (dsrPercent monthlyIncome monthlyDebt ≤ 20 →
        (scoreProfile monthlyIncome monthlyDebt).estimated_credit_tier =
          CreditTier.EXCELLENT) ∧
      (20 < dsrPercent monthlyIncome monthlyDebt →
        dsrPercent monthlyIncome monthlyDebt ≤ 35 →
        (scoreProfile monthlyIncome monthlyDebt).estimated_credit_tier =
          CreditTier.GOOD) ∧
      (35 < dsrPercent monthlyIncome monthlyDebt →
        dsrPercent monthlyIncome monthlyDebt ≤ 50 →
        (scoreProfile monthlyIncome monthlyDebt).estimated_credit_tier =
          CreditTier.FAIR) ∧
      (50 < dsrPercent monthlyIncome monthlyDebt →
        dsrPercent monthlyIncome monthlyDebt ≤ 70 →
        (scoreProfile monthlyIncome monthlyDebt).estimated_credit_tier =
          CreditTier.BELOW_AVERAGE) ∧
      (70 < dsrPercent monthlyIncome monthlyDebt →
        (scoreProfile monthlyIncome monthlyDebt).estimated_credit_tier =
          CreditTier.POOR)) ∧
    (monthlyIncome = 0 →
      (scoreProfile monthlyIncome monthlyDebt).estimated_credit_tier =
          CreditTier.FAIR ∧
      (scoreProfile monthlyIncome monthlyDebt).low_confidence = true) := by
  constructor
  · intro hpos
    have hsp : scoreProfile monthlyIncome monthlyDebt =
        { dsr_percent := dsrPercent monthlyIncome monthlyDebt
          estimated_credit_tier :=
            tierFromDSR (dsrPercent monthlyIncome monthlyDebt)
          low_confidence := false } := by
      simp [scoreProfile, hpos]
    rw [hsp]
    refine ⟨rfl, fun h1 => ?_, fun h1 h2 => ?_, fun h1 h2 => ?_,
      fun h1 h2 => ?_, fun h1 => ?_⟩
    · simp [tierFromDSR, h1]
    · simp [tierFromDSR, not_le.mpr h1, h2]
    · simp [tierFromDSR, not_le.mpr h1, not_le.mpr (by linarith : (20:ℚ) < _), h2]
    · simp [tierFromDSR, not_le.mpr h1, not_le.mpr (by linarith : (20:ℚ) < _),
        not_le.mpr (by linarith : (35:ℚ) < _), h2]
    · simp [tierFromDSR, not_le.mpr h1, not_le.mpr (by linarith : (20:ℚ) < _),
        not_le.mpr (by linarith : (35:ℚ) < _), not_le.mpr (by linarith : (50:ℚ) < _)]
  · intro h0
    have hneg : ¬ 0 < monthlyIncome := by rw [h0]; exact lt_irrefl 0
    simp [scoreProfile, if_neg hneg]

/-- Claim C6, witness: the documented example income `8500` with debt `1200`
gives DSR `240/17 ≈ 14.1 ≤ 20` and tier `EXCELLENT`; a zero-income profile
gets tier `FAIR` with the low-confidence marker. -/
theorem credit_tier_table_and_zero_income_default_witness :
    (0 : ℚ) < 8500 ∧
    dsrPercent 8500 1200 ≤ 20 ∧
    (scoreProfile 8500 1200).estimated_credit_tier = CreditTier.EXCELLENT ∧
    (scoreProfile 0 500).estimated_credit_tier = CreditTier.FAIR ∧
    (scoreProfile 0 500).low_confidence = true := by
  have hd : dsrPercent 8500 1200 ≤ 20 := by
    norm_num [dsrPercent]
  refine ⟨by norm_num, hd, ?_, ?_, ?_⟩
  · exact (((credit_tier_table_and_zero_income_default 8500 1200).1
      (by norm_num)).2.1) hd
  · exact ((credit_tier_table_and_zero_income_default 0 500).2 rfl).1
  · exact ((credit_tier_table_and_zero_income_default 0 500).2 rfl).2

/-- Claim C7, counterexample: with a corpus search that returns the same
guideline for every query (which per-query retrieval permits), the combined
result of `get_bnm_context_for_loan` for the (home, conventional, salaried)
context contains the same snippet four times — the returned sequence is not
deduplicated. -/
theorem bnm_context_duplicate_counterexample :
    ¬ (bnmContextList constantRetrieve "home" "conventional"
        "salaried").Nodup := by
  have hl : bnmContextList constantRetrieve "home" "conventional" "salaried" =
      ["• Guideline X", "• Guideline X", "• Guideline X", "• Guideline X"] :=
    rfl
  rw [hl]
  intro h
  exact (List.nodup_cons.mp h).1 (List.mem_cons_self _ _)

/-- Claim C7, amended: for every corpus and every categorical context, the
guideline retrieval returns at most `8` snippets, and two invocations whose
corpus searches agree on every query return the same result — but the
combined sequence is capped, not deduplicated (see the counterexample). -/
theorem bnm_context_capped_and_deterministic :
    (∀ (retrieve : String → List String) (lt bs ct : String),
        (bnmContextList retrieve lt bs ct).length ≤ 8) ∧
    (∀ (r1 r2 : String → List String) (lt bs ct : String),
        (∀ q, r1 q = r2 q) →
        bnmContextList r1 lt bs ct = bnmContextList r2 lt bs ct) := by
  constructor
  · intro retrieve lt bs ct
    exact List.length_take_le 8 _
  · intro r1 r2 lt bs ct hq
    have hr : r1 = r2 := funext hq
    rw [bnmContextList, bnmContextList, hr]

/-- Claim C7, witness: the cap and the determinism conjunct instantiated at
the degenerate single-guideline corpus for (home, conventional, salaried). -/
theorem bnm_context_capped_and_deterministic_witness :
    (bnmContextList constantRetrieve "home" "conventional"
        "salaried").length ≤ 8 ∧
    bnmContextList constantRetrieve "home" "conventional" "salaried" =
      bnmContextList (fun q => constantRetrieve q) "home" "conventional"
        "salaried" := by
  exact ⟨bnm_context_capped_and_deterministic.1 _ _ _ _,
    bnm_context_capped_and_deterministic.2 _ _ _ _ _ (fun q => rfl)⟩

/-- Claim C8: for fixed positive monthly income, the DSR percentage is
monotonic non-decreasing in the monthly debt. -/
theorem dsr_monotone_in_debt
    (monthlyIncome d1 d2 : ℚ) (hpos : 0 < monthlyIncome) (hd : d1 ≤ d2) :
    dsrPercent monthlyIncome d1 ≤ dsrPercent monthlyIncome d2 := by
  simp only [dsrPercent, if_pos hpos]
  gcongr

/-- Claim C8, witness: at income `8500`, raising the debt from `1200` to
`1300` does not decrease the DSR. -/
theorem dsr_monotone_in_debt_witness :
    (0 : ℚ) < 8500 ∧ (1200 : ℚ) ≤ 1300 ∧
    dsrPercent 8500 1200 ≤ dsrPercent 8500 1300 := by
  exact ⟨by norm_num, by norm_num,
    dsr_monotone_in_debt 8500 1200 1300 (by norm_num) (by norm_num)⟩

/-- Claim C9: the frontend risk styling class is `''` for a null result; for
a non-null result it is `'low'` exactly when the lowercased effective tier
string (`risk_category` falling back to `risk_level`, then `''`) contains
`"low"`, otherwise `'medium'` exactly when it contains `"medium"`, and any
string containing neither substring maps to `'high'`. -/
theorem risk_class_derivation :
    riskClass none = "" ∧
    ∀ ra : RiskAnalysis,
      (riskClass (some ra) = "low" ↔
        strIncludes (strLower (effectiveRiskString ra)) "low" = true) ∧
      (riskClass (some ra) = "medium" ↔
        (strIncludes (strLower (effectiveRiskString ra)) "low" = false ∧
         strIncludes (strLower (effectiveRiskString ra)) "medium" = true)) ∧
      ((strIncludes (strLower (effectiveRiskString ra)) "low" = false ∧
        strIncludes (strLower (effectiveRiskString ra)) "medium" = false) →
        riskClass (some ra) = "high") := by
  refine ⟨rfl, fun ra => ?_⟩
  by_cases hlow : strIncludes (strLower (effectiveRiskString ra)) "low" = true
  · refine ⟨?_, ?_, ?_⟩
    · simp [riskClass, hlow]
    · simp [riskClass, hlow]
    · rintro ⟨hfalse, -⟩
      rw [hlow] at hfalse
      cases hfalse
  · have hlow' : strIncludes (strLower (effectiveRiskString ra)) "low" = false :=
      Bool.eq_false_iff.mpr hlow
    by_cases hmed :
        strIncludes (strLower (effectiveRiskString ra)) "medium" = true
    · refine ⟨?_, ?_, ?_⟩
      · simp [riskClass, hlow', hmed]
      · simp [riskClass, hlow', hmed]
      · rintro ⟨-, hfalse⟩
        rw [hmed] at hfalse
        cases hfalse
    · have hmed' :
          strIncludes (strLower (effectiveRiskString ra)) "medium" = false :=
        Bool.eq_false_iff.mpr hmed
      refine ⟨?_, ?_, ?_⟩
      · simp [riskClass, hlow', hmed']
      · simp [riskClass, hlow', hmed']
      · intro _
        simp [riskClass, hlow', hmed']

/-- Claim C9, witness: the backend tier string `"LOW RISK"` is classed
`'low'`, the fallback to `risk_level` classes `"Medium"` as `'medium'`, an
unrecognized tier string is classed `'high'`, and a null result gives
`''`. -/
theorem risk_class_derivation_witness :
    riskClass (some (RiskAnalysis.mk (some "LOW RISK") none)) = "low" ∧
    riskClass (some (RiskAnalysis.mk none (some "Medium"))) = "medium" ∧
    riskClass (some (RiskAnalysis.mk (some "UNKNOWN") none)) = "high" ∧
    riskClass none = "" := by
  refine ⟨?_, ?_, ?_, risk_class_derivation.1⟩
  · exact (risk_class_derivation.2 _).1.mpr (by decide)
  · exact (risk_class_derivation.2 _).2.1.mpr (by decide)
  · exact (risk_class_derivation.2 _).2.2 (by decide)

/-- Claim C10: whenever the `startAnalysis` request does not succeed — the
fetch rejects, the response is not ok, or the body fails to parse as JSON —
the component ends with `analysisResult = null` and
`analysisStatus = 'error'`; and for any prior state the result is reset to
null by the synchronous prefix, before the request is issued. -/
theorem start_analysis_error_clears_result
    {α : Type} (s : AppState α) (o : FetchOutcome α)
    (h : ∀ d : α, o ≠ FetchOutcome.success d) :
    (startAnalysisRun s o).analysisResult = none ∧
    (startAnalysisRun s o).analysisStatus = "error" ∧
    (startAnalysisBegin s).analysisResult = none := by
  refine ⟨?_, ?_, rfl⟩ <;>
    cases o <;> first | rfl | exact absurd rfl (h _)

/-- Claim C10, witness: starting from a state that still holds a previous
successful result, a rejected fetch ends with a null result and error
status, and the result is already cleared by the synchronous prefix. -/
theorem start_analysis_error_clears_result_witness :
    (∀ d : Nat,
      (FetchOutcome.networkError : FetchOutcome Nat) ≠
        FetchOutcome.success d) ∧
    (startAnalysisRun (AppState.mk "complete" (some 7))
        (FetchOutcome.networkError : FetchOutcome Nat)).analysisResult =
      none ∧
    (startAnalysisRun (AppState.mk "complete" (some 7))
        (FetchOutcome.networkError : FetchOutcome Nat)).analysisStatus =
      "error" ∧
    (startAnalysisBegin (AppState.mk "complete" (some 7)) :
        AppState Nat).analysisResult = none := by
  have h : ∀ d : Nat,
      (FetchOutcome.networkError : FetchOutcome Nat) ≠
        FetchOutcome.success d := fun d hd => nomatch hd
  have hmain := start_analysis_error_clears_result
    (AppState.mk "complete" (some 7)) FetchOutcome.networkError h
  exact ⟨h, hmain.1, hmain.2.1, hmain.2.2⟩

end BadDebtGuard
